import Mathlib

/-!
Verification of the round-lifecycle orchestrator (`Game` in
`src/poker/src/game.rs`) of the Near-Poker repository.

The orchestrator `Game` is embedded faithfully from `game.rs`.  The
collaborator protocols `Deck` (shuffle/reveal) and `Poker` (betting), and the
auxiliary types `RoomId` / `CryptoHash`, are not part of the provided sources;
they are modelled from the specification (each such definition carries a
`Modelled from the spec:` doc comment).  Rust's `Result<T, E>` is embedded as
`Except E` with explicit state passing: a mutating method on `&mut self`
becomes a function `Game → Except GameError Game`, an error meaning the call
aborts with no state change (the spec's atomicity policy, §7).
-/

/-- Modelled from the spec: `CryptoHash` (src/types, not in the provided
sources) is "a fixed-size cryptographic digest used as a commitment/identifier
for a card or shuffle step"; its exact representation is irrelevant to the
orchestrator, which only passes it through, so it is modelled as `Nat`. -/
abbrev CryptoHash := Nat

/-- Modelled from the spec: `RoomId` (src/types, not in the provided sources)
is a "unique identifier of a game instance"; modelled as `Nat`. -/
abbrev RoomId := Nat

/-- Modelled from the spec: the deck protocol's status enumeration.  `game.rs`
names exactly two variants, `DeckStatus::Initiating` (the initial substatus)
and `DeckStatus::Running` (the "ready to play" substatus the orchestrator
branches on).  `Shuffling` and `Revealing` are the intermediate phases of the
mental-poker shuffle/reveal flow, and `Closed` is the torn-down state entered
by `close()` (spec §4.2, invariant I3). -/
inductive DeckStatus
  | Initiating
  | Shuffling
  | Revealing
  | Running
  | Closed
deriving DecidableEq

/-- Modelled from the spec: the deck protocol's error type (§7: "shuffle/reveal
verification failure, invalid card data, or the deck protocol rejecting a call
in its own current phase"). -/
inductive DeckError
  | InvalidPhase
  | InvalidCardData
deriving DecidableEq

/-- Modelled from the spec: the deck protocol state (§6).  It owns the card
commitments, the set of entrants, and progress counters for the shuffle and
reveal rounds. -/
structure Deck where
  status : DeckStatus
  players : Nat
  cards : List CryptoHash
  shuffles_done : Nat
  reveals_done : Nat
deriving DecidableEq

namespace Deck

/-- Modelled from the spec: `new(card_count)` creates a fresh, unshuffled deck
of `n` cards in the initial substatus with no entrants. -/
def new (n : Nat) : Deck :=
  { status := DeckStatus.Initiating
    players := 0
    cards := List.range n
    shuffles_done := 0
    reveals_done := 0 }

/-- Modelled from the spec: `status()` reports the deck's current substatus. -/
def get_status (d : Deck) : DeckStatus :=
  d.status

/-- Modelled from the spec: `enter()` admits a new entrant; it fails when the
deck rejects entry, "e.g., round already running / capacity" (§4.2), i.e. in
every substatus other than the initial one — in particular after teardown
(invariant I3 requires a closed game to reject all mutation). -/
def enter (d : Deck) : Except DeckError Deck :=
  if d.status = DeckStatus.Initiating then
    Except.ok { d with players := d.players + 1 }
  else
    Except.error DeckError.InvalidPhase

/-- Modelled from the spec: `start()` "instructs deck protocol to begin
shuffling" (§4.2).  The spec documents no failure condition for it, so it is
modelled as always succeeding (wrapped in the `Result` type §6 gives it). -/
def start (d : Deck) : Except DeckError Deck :=
  Except.ok { d with status := DeckStatus.Shuffling, shuffles_done := 0, reveals_done := 0 }

/-- Modelled from the spec: `close()` "tears down deck protocol state" (§4.2);
afterwards the deck rejects every operation (invariant I3). -/
def close (d : Deck) : Deck :=
  { d with status := DeckStatus.Closed }

/-- Modelled from the spec: `get_partial_shuffle()` "returns the current
partial shuffle artifact from deck protocol, no state change", valid only per
the deck protocol's own phase rules (§4.2). -/
def get_partial_shuffle (d : Deck) : Except DeckError (List CryptoHash) :=
  if d.status = DeckStatus.Shuffling then
    Except.ok d.cards
  else
    Except.error DeckError.InvalidPhase

/-- Modelled from the spec: `submit_shuffled(cards)` accepts one participant's
shuffle of the full deck during the shuffling phase; submitting a list of the
wrong length is "invalid card data" (§7).  Once every entrant has submitted,
the protocol moves on to the reveal phase. -/
def submit_shuffled (cs : List CryptoHash) (d : Deck) : Except DeckError Deck :=
  if d.status = DeckStatus.Shuffling then
    if cs.length = d.cards.length then
      Except.ok { d with
        cards := cs
        shuffles_done := d.shuffles_done + 1
        status :=
          if d.players ≤ d.shuffles_done + 1 then DeckStatus.Revealing
          else DeckStatus.Shuffling }
    else
      Except.error DeckError.InvalidCardData
  else
    Except.error DeckError.InvalidPhase

/-- Modelled from the spec: `submit_reveal_part(card)` "forwards one revealed
card" during the reveal phase (§4.2). -/
def submit_reveal_part (c : CryptoHash) (d : Deck) : Except DeckError Deck :=
  if d.status = DeckStatus.Revealing then
    Except.ok { d with cards := d.cards ++ [c], reveals_done := d.reveals_done + 1 }
  else
    Except.error DeckError.InvalidPhase

/-- Modelled from the spec: `finish_reveal()` "signals deck protocol a reveal
step is complete" (§4.2); completing the reveal makes the deck fully shuffled
and playable, the "ready to play" substatus `Running`. -/
def finish_reveal (d : Deck) : Except DeckError Deck :=
  if d.status = DeckStatus.Revealing then
    Except.ok { d with status := DeckStatus.Running }
  else
    Except.error DeckError.InvalidPhase

end Deck

/-- Modelled from the spec: the betting protocol's status (`BettingSubstatus`,
opaque to the orchestrator §6).  `NotStarted` is the state of an empty table;
`Decision n` is the n-th decision point of the betting round. -/
inductive PokerStatus
  | NotStarted
  | Decision (n : Nat)
deriving DecidableEq

/-- Modelled from the spec: the betting protocol state (§6): the registered
participants' stakes and the current betting substatus. -/
structure Poker where
  players : List Nat
  status : PokerStatus
deriving DecidableEq

namespace Poker

/-- Modelled from the spec: `new()` creates an empty betting table. -/
def new : Poker :=
  { players := [], status := PokerStatus.NotStarted }

/-- Modelled from the spec: `new_player(starting_stake)` registers one new
betting participant with the given stake, preserving the existing ones. -/
def new_player (stake : Nat) (p : Poker) : Poker :=
  { p with players := p.players ++ [stake] }

/-- Modelled from the spec: `next()` / `advance()` "advances internal betting
state by one decision point" (§6). -/
def next (p : Poker) : Poker :=
  { p with status :=
      match p.status with
      | PokerStatus.NotStarted => PokerStatus.Decision 0
      | PokerStatus.Decision n => PokerStatus.Decision (n + 1) }

/-- Modelled from the spec: `status()` reports the betting substatus. -/
def get_status (p : Poker) : PokerStatus :=
  p.status

end Poker

/-- `GameError` from game.rs: a deck-protocol error wrapped losslessly, a
reserved room-lookup failure, and the phase violation `OngoingRound`. -/
inductive GameError
  | DeckError (e : DeckError)
  | RoomIdNotFound
  | OngoingRound
deriving DecidableEq

/-- `GameStatus` from game.rs: which sub-protocol currently holds control, or
that the round has not started / the game is closed. -/
inductive GameStatus
  | Initiating
  | Idle
  | DeckAction (s : DeckStatus)
  | PokerAction (s : PokerStatus)
  | Closed
deriving DecidableEq

namespace GameStatus

/-- `GameStatus::is_active` from game.rs: `*self != GameStatus::Closed`. -/
def is_active (s : GameStatus) : Bool :=
  s != GameStatus.Closed

/-- `GameStatus::is_initiating` from game.rs:
`*self == GameStatus::DeckAction(DeckStatus::Initiating)`. -/
def is_initiating (s : GameStatus) : Bool :=
  s == GameStatus.DeckAction DeckStatus.Initiating

end GameStatus

/-- `Game` from game.rs: the orchestrator, owning one deck protocol instance
and one betting protocol instance. -/
structure Game where
  name : String
  id : RoomId
  status : GameStatus
  deck : Deck
  poker : Poker
deriving DecidableEq

namespace Game

/-- `Game::new` from game.rs: status `Initiating`, `Deck::new(52)`,
`Poker::new()`. -/
def new (name : String) (id : RoomId) : Game :=
  { name := name
    id := id
    status := GameStatus.Initiating
    deck := Deck.new 52
    poker := Poker.new }

/-- `Game::enter` from game.rs: forward to `deck.enter()`, wrapping a deck
error via `From`; on success register a betting participant with stake 1000. -/
def enter (g : Game) : Except GameError Game :=
  match g.deck.enter with
  | Except.error e => Except.error (GameError.DeckError e)
  | Except.ok d => Except.ok { g with deck := d, poker := g.poker.new_player 1000 }

/-- `Game::start` from game.rs: only from `Initiating`/`Idle`; starts the deck
protocol and sets status to `DeckAction(self.deck.get_status())` (the status
the deck reports after `deck.start()`); otherwise `OngoingRound`. -/
def start (g : Game) : Except GameError Game :=
  match g.status with
  | GameStatus.Initiating | GameStatus.Idle =>
    match g.deck.start with
    | Except.error e => Except.error (GameError.DeckError e)
    | Except.ok d => Except.ok { g with deck := d, status := GameStatus.DeckAction d.get_status }
  | _ => Except.error GameError.OngoingRound

/-- `Game::close` from game.rs: only from `Initiating`/`Idle`; calls
`deck.close()` and sets status to `Closed`; otherwise `OngoingRound`. -/
def close (g : Game) : Except GameError Game :=
  match g.status with
  | GameStatus.Initiating | GameStatus.Idle =>
    Except.ok { g with deck := g.deck.close, status := GameStatus.Closed }
  | _ => Except.error GameError.OngoingRound

/-- `Game::check_next_status` from game.rs: if the deck's status is not
`Running`, mirror it into `DeckAction(..)` and return; otherwise call
`self.poker.next()` — and, as in the source (`// TODO: Here`), leave
`self.status` unchanged. -/
def check_next_status (g : Game) : Game :=
  let deck_status := g.deck.get_status
  if deck_status ≠ DeckStatus.Running then
    { g with status := GameStatus.DeckAction deck_status }
  else
    { g with poker := g.poker.next }

/-- `Game::deck_state` from game.rs: read-only snapshot copy of the deck. -/
def deck_state (g : Game) : Deck :=
  g.deck

/-- `Game::poker_state` from game.rs: read-only snapshot copy of the poker. -/
def poker_state (g : Game) : Poker :=
  g.poker

/-- `Game::state` from game.rs: read-only copy of the status. -/
def state (g : Game) : GameStatus :=
  g.status

/-- `Game::get_partial_shuffle` from game.rs: delegate, wrapping errors. -/
def get_partial_shuffle (g : Game) : Except GameError (List CryptoHash) :=
  match g.deck.get_partial_shuffle with
  | Except.error e => Except.error (GameError.DeckError e)
  | Except.ok v => Except.ok v

/-- `Game::submit_shuffled` from game.rs: forward to the deck, wrapping
errors; on success run `check_next_status`. -/
def submit_shuffled (cs : List CryptoHash) (g : Game) : Except GameError Game :=
  match g.deck.submit_shuffled cs with
  | Except.error e => Except.error (GameError.DeckError e)
  | Except.ok d => Except.ok (check_next_status { g with deck := d })

/-- `Game::finish_reveal` from game.rs: forward to the deck, wrapping errors;
on success run `check_next_status`. -/
def finish_reveal (g : Game) : Except GameError Game :=
  match g.deck.finish_reveal with
  | Except.error e => Except.error (GameError.DeckError e)
  | Except.ok d => Except.ok (check_next_status { g with deck := d })

/-- `Game::submit_reveal_part` from game.rs: forward to the deck, wrapping
errors; on success run `check_next_status`. -/
def submit_reveal_part (c : CryptoHash) (g : Game) : Except GameError Game :=
  match g.deck.submit_reveal_part c with
  | Except.error e => Except.error (GameError.DeckError e)
  | Except.ok d => Except.ok (check_next_status { g with deck := d })

end Game

/-!
Serialization.  `game.rs` derives `BorshSerialize`/`BorshDeserialize` for
`GameError`, `GameStatus` and `Game`.  Modelled from the spec: the exact byte
layout "is the persistence host's concern" (§6), so the borsh encoding is
embedded structurally over a token stream (`List Nat`): an enum is a tag token
followed by the payload of its active variant, a struct is its fields in
declaration order, a sequence and a string are length-prefixed.  A decoder
consumes a prefix of the stream and returns the value plus the rest.
-/

namespace Codec

/-- Length-prefixed encoding of a sequence of numeric tokens. -/
def serNats (xs : List Nat) : List Nat :=
  xs.length :: xs

/-- Reads exactly `n` tokens from the stream. -/
def deserCount : Nat → List Nat → Option (List Nat × List Nat)
  | 0, ts => some ([], ts)
  | _ + 1, [] => none
  | n + 1, t :: ts =>
    match deserCount n ts with
    | some (xs, r) => some (t :: xs, r)
    | none => none

/-- Decodes a length-prefixed sequence of numeric tokens. -/
def deserNats : List Nat → Option (List Nat × List Nat)
  | [] => none
  | n :: ts => deserCount n ts

/-- Length-prefixed encoding of a string's characters. -/
def serString (s : String) : List Nat :=
  s.data.length :: s.data.map Char.toNat

/-- Decodes a length-prefixed string. -/
def deserString (ts : List Nat) : Option (String × List Nat) :=
  match deserNats ts with
  | some (xs, r) => some (String.mk (xs.map Char.ofNat), r)
  | none => none

/-- Tag-based encoding of `DeckStatus`. -/
def serDeckStatus : DeckStatus → List Nat
  | DeckStatus.Initiating => [0]
  | DeckStatus.Shuffling => [1]
  | DeckStatus.Revealing => [2]
  | DeckStatus.Running => [3]
  | DeckStatus.Closed => [4]

/-- Decodes a `DeckStatus` tag. -/
def deserDeckStatus : List Nat → Option (DeckStatus × List Nat)
  | 0 :: ts => some (DeckStatus.Initiating, ts)
  | 1 :: ts => some (DeckStatus.Shuffling, ts)
  | 2 :: ts => some (DeckStatus.Revealing, ts)
  | 3 :: ts => some (DeckStatus.Running, ts)
  | 4 :: ts => some (DeckStatus.Closed, ts)
  | _ => none

/-- Tag-based encoding of `DeckError`. -/
def serDeckError : DeckError → List Nat
  | DeckError.InvalidPhase => [0]
  | DeckError.InvalidCardData => [1]

/-- Decodes a `DeckError` tag. -/
def deserDeckError : List Nat → Option (DeckError × List Nat)
  | 0 :: ts => some (DeckError.InvalidPhase, ts)
  | 1 :: ts => some (DeckError.InvalidCardData, ts)
  | _ => none

/-- Tag-based encoding of `PokerStatus`. -/
def serPokerStatus : PokerStatus → List Nat
  | PokerStatus.NotStarted => [0]
  | PokerStatus.Decision n => [1, n]

/-- Decodes a `PokerStatus`. -/
def deserPokerStatus : List Nat → Option (PokerStatus × List Nat)
  | 0 :: ts => some (PokerStatus.NotStarted, ts)
  | 1 :: n :: ts => some (PokerStatus.Decision n, ts)
  | _ => none

/-- Encoding of the deck protocol state, fields in declaration order. -/
def serDeck (d : Deck) : List Nat :=
  serDeckStatus d.status ++ d.players :: serNats d.cards ++ [d.shuffles_done, d.reveals_done]

/-- Decodes a deck protocol state. -/
def deserDeck (ts : List Nat) : Option (Deck × List Nat) :=
  match deserDeckStatus ts with
  | none => none
  | some (st, ts1) =>
    match ts1 with
    | [] => none
    | pl :: ts2 =>
      match deserNats ts2 with
      | none => none
      | some (cs, ts3) =>
        match ts3 with
        | sd :: rd :: ts4 => some (⟨st, pl, cs, sd, rd⟩, ts4)
        | _ => none

/-- Encoding of the betting protocol state, fields in declaration order. -/
def serPoker (p : Poker) : List Nat :=
  serNats p.players ++ serPokerStatus p.status

/-- Decodes a betting protocol state. -/
def deserPoker (ts : List Nat) : Option (Poker × List Nat) :=
  match deserNats ts with
  | none => none
  | some (pl, ts1) =>
    match deserPokerStatus ts1 with
    | none => none
    | some (st, ts2) => some (⟨pl, st⟩, ts2)

/-- Tag-based encoding of `GameStatus` with the active variant's payload. -/
def serGameStatus : GameStatus → List Nat
  | GameStatus.Initiating => [0]
  | GameStatus.Idle => [1]
  | GameStatus.DeckAction s => 2 :: serDeckStatus s
  | GameStatus.PokerAction s => 3 :: serPokerStatus s
  | GameStatus.Closed => [4]

/-- Decodes a `GameStatus`. -/
def deserGameStatus : List Nat → Option (GameStatus × List Nat)
  | 0 :: ts => some (GameStatus.Initiating, ts)
  | 1 :: ts => some (GameStatus.Idle, ts)
  | 2 :: ts =>
    match deserDeckStatus ts with
    | some (s, r) => some (GameStatus.DeckAction s, r)
    | none => none
  | 3 :: ts =>
    match deserPokerStatus ts with
    | some (s, r) => some (GameStatus.PokerAction s, r)
    | none => none
  | 4 :: ts => some (GameStatus.Closed, ts)
  | _ => none

/-- Tag-based encoding of `GameError` with the wrapped deck error. -/
def serGameError : GameError → List Nat
  | GameError.DeckError e => 0 :: serDeckError e
  | GameError.RoomIdNotFound => [1]
  | GameError.OngoingRound => [2]

/-- Decodes a `GameError`. -/
def deserGameError : List Nat → Option (GameError × List Nat)
  | 0 :: ts =>
    match deserDeckError ts with
    | some (e, r) => some (GameError.DeckError e, r)
    | none => none
  | 1 :: ts => some (GameError.RoomIdNotFound, ts)
  | 2 :: ts => some (GameError.OngoingRound, ts)
  | _ => none

/-- Encoding of the orchestrator state, fields in declaration order:
name, id, status, deck, poker. -/
def serGame (g : Game) : List Nat :=
  serString g.name ++ g.id :: serGameStatus g.status ++ serDeck g.deck ++ serPoker g.poker

/-- Decodes an orchestrator state. -/
def deserGame (ts : List Nat) : Option (Game × List Nat) :=
  match deserString ts with
  | none => none
  | some (nm, ts1) =>
    match ts1 with
    | [] => none
    | i :: ts2 =>
      match deserGameStatus ts2 with
      | none => none
      | some (st, ts3) =>
        match deserDeck ts3 with
        | none => none
        | some (d, ts4) =>
          match deserPoker ts4 with
          | none => none
          | some (p, ts5) => some (⟨nm, i, st, d, p⟩, ts5)

theorem deserCount_append (xs r : List Nat) : deserCount xs.length (xs ++ r) = some (xs, r) := by
  induction xs with
  | nil => rfl
  | cons x xs ih => simp [deserCount, ih]

theorem deserNats_serNats (xs r : List Nat) : deserNats (serNats xs ++ r) = some (xs, r) := by
  simpa [serNats, deserNats] using deserCount_append xs r

theorem map_ofNat_toNat (cs : List Char) : (cs.map Char.toNat).map Char.ofNat = cs := by
  induction cs with
  | nil => rfl
  | cons c cs ih => simp [Char.ofNat_toNat, ih]

theorem deserString_serString (s : String) (r : List Nat) :
    deserString (serString s ++ r) = some (s, r) := by
  cases s with
  | mk data =>
    have h1 : serString (String.mk data) ++ r = serNats (data.map Char.toNat) ++ r := by
      simp [serString, serNats]
    rw [h1]
    simp only [deserString, deserNats_serNats, map_ofNat_toNat]

theorem deserDeckStatus_ser (s : DeckStatus) (r : List Nat) :
    deserDeckStatus (serDeckStatus s ++ r) = some (s, r) := by
  cases s <;> rfl

theorem deserDeckError_ser (e : DeckError) (r : List Nat) :
    deserDeckError (serDeckError e ++ r) = some (e, r) := by
  cases e <;> rfl

theorem deserPokerStatus_ser (s : PokerStatus) (r : List Nat) :
    deserPokerStatus (serPokerStatus s ++ r) = some (s, r) := by
  cases s <;> rfl

theorem deserDeck_serDeck (d : Deck) (r : List Nat) :
    deserDeck (serDeck d ++ r) = some (d, r) := by
  cases d with
  | mk st pl cs sd rd =>
    simp [serDeck, deserDeck, List.append_assoc, deserDeckStatus_ser, deserNats_serNats]

theorem deserPoker_serPoker (p : Poker) (r : List Nat) :
    deserPoker (serPoker p ++ r) = some (p, r) := by
  cases p with
  | mk pl st =>
    simp [serPoker, deserPoker, List.append_assoc, deserNats_serNats, deserPokerStatus_ser]

theorem deserGameStatus_ser (s : GameStatus) (r : List Nat) :
    deserGameStatus (serGameStatus s ++ r) = some (s, r) := by
  cases s <;> simp [serGameStatus, deserGameStatus, deserDeckStatus_ser, deserPokerStatus_ser]

theorem deserGameError_ser (e : GameError) (r : List Nat) :
    deserGameError (serGameError e ++ r) = some (e, r) := by
  cases e <;> simp [serGameError, deserGameError, deserDeckError_ser]

theorem deserGame_serGame (g : Game) (r : List Nat) :
    deserGame (serGame g ++ r) = some (g, r) := by
  cases g with
  | mk nm i st d p =>
    simp [serGame, deserGame, List.append_assoc, deserString_serString,
      deserGameStatus_ser, deserDeck_serDeck, deserPoker_serPoker]

end Codec

/-- Whether a fallible call succeeded. -/
def callOk {ε α : Type} : Except ε α → Bool
  | Except.ok _ => true
  | Except.error _ => false

/-- Extracts the post-state of a successful mutating call; a failed call
leaves the pre-state `g0` (Rust's `?` aborts with no state change). -/
def getOk (r : Except GameError Game) (g0 : Game) : Game :=
  match r with
  | Except.ok g => g
  | Except.error _ => g0

/-- Demo state: a fresh game. -/
def gDemo0 : Game := Game.new "t" 7

/-- Demo state: one player entered. -/
def gDemo1 : Game := getOk (Game.enter gDemo0) gDemo0

/-- Demo state: round started, deck shuffling. -/
def gDemo2 : Game := getOk (Game.start gDemo1) gDemo1

/-- Demo state: the single entrant submitted a shuffle, deck revealing. -/
def gDemo3 : Game := getOk (Game.submit_shuffled (List.range 52) gDemo2) gDemo2

/-- Demo state: reveal finished, deck reports `Running`. -/
def gDemo4 : Game := getOk (Game.finish_reveal gDemo3) gDemo3

/-- Demo state: a game closed from `Initiating` by a successful `close()`. -/
def gameClosedDemo : Game :=
  { Game.new "a" 0 with deck := Deck.close (Deck.new 52), status := GameStatus.Closed }

/-- Demo state: an (unreachable) game whose status field was set to `Closed`
while its deck is still fresh; used to exhibit that `enter` ignores status. -/
def gStatusClosed : Game :=
  { Game.new "a" 0 with status := GameStatus.Closed }

/-- Demo state: result of `enter` on `gStatusClosed`. -/
def gClosedEnter : Game := getOk (Game.enter gStatusClosed) gStatusClosed

/-- Demo state: one successful `enter` on a fresh game. -/
def gEnter1 : Game := getOk (Game.enter (Game.new "a" 0)) (Game.new "a" 0)

/-- `check_next_status` never touches the deck, and mirrors a non-`Running`
deck status into `DeckAction`. -/
theorem check_next_status_spec (h : Game) :
    (Game.check_next_status h).deck = h.deck ∧
    (h.deck.get_status ≠ DeckStatus.Running →
      (Game.check_next_status h).status = GameStatus.DeckAction h.deck.get_status) := by
  by_cases hr : h.deck.get_status = DeckStatus.Running <;>
    simp [Game.check_next_status, hr]

/-- C6: `Game::new(name, id)` constructs a game in status `Initiating` with a
fresh unshuffled 52-card deck and an empty betting table, and `state()`
returns `Initiating` immediately afterwards. -/
theorem c6_new_game (name : String) (id : RoomId) :
    Game.new name id =
      { name := name, id := id, status := GameStatus.Initiating,
        deck := Deck.new 52, poker := Poker.new } ∧
    (Game.new name id).state = GameStatus.Initiating ∧
    (Deck.new 52).status = DeckStatus.Initiating ∧
    (Deck.new 52).cards = List.range 52 ∧
    (Deck.new 52).cards.length = 52 ∧
    (Deck.new 52).players = 0 ∧
    (Deck.new 52).shuffles_done = 0 ∧
    Poker.new.players = [] := by
  refine ⟨rfl, rfl, rfl, rfl, by simp [Deck.new], rfl, rfl, rfl⟩

/-- C3: `start()` succeeds iff status is `Initiating` or `Idle`; in any other
status it returns `OngoingRound` (hence, by the state-passing embedding, with
no state change); on success the status becomes `DeckAction` of the status the
deck reports after being started, and the rest of the game is untouched. -/
theorem c3_start_guard (g : Game) :
    (callOk (Game.start g) = true ↔
      g.status = GameStatus.Initiating ∨ g.status = GameStatus.Idle) ∧
    (g.status ≠ GameStatus.Initiating → g.status ≠ GameStatus.Idle →
      Game.start g = Except.error GameError.OngoingRound) ∧
    (∀ g', Game.start g = Except.ok g' →
      g'.status = GameStatus.DeckAction g'.deck.get_status ∧
      g'.name = g.name ∧ g'.id = g.id ∧ g'.poker = g.poker) := by
  cases hs : g.status with
  | Initiating => simp [Game.start, hs, Deck.start, Deck.get_status, callOk]
  | Idle => simp [Game.start, hs, Deck.start, Deck.get_status, callOk]
  | DeckAction s => simp [Game.start, hs, callOk]
  | PokerAction s => simp [Game.start, hs, callOk]
  | Closed => simp [Game.start, hs, callOk]

/-- Witness for C3 at concrete inputs: a closed game's `start` fails with
`OngoingRound`. -/
theorem c3_start_guard_witness :
    Game.start gameClosedDemo = Except.error GameError.OngoingRound :=
  (c3_start_guard gameClosedDemo).2.1 (by decide) (by decide)

/-- C5: `close()` succeeds iff status is `Initiating` or `Idle`, in which case
it tears down the deck (the deck's `close` is applied, leaving it in the
torn-down substatus) and sets status to `Closed`; from any other status —
a round in progress or already `Closed` — it returns `OngoingRound` with no
state change. -/
theorem c5_close_guard (g : Game) :
    (callOk (Game.close g) = true ↔
      g.status = GameStatus.Initiating ∨ g.status = GameStatus.Idle) ∧
    (∀ g', Game.close g = Except.ok g' →
      g' = { g with deck := g.deck.close, status := GameStatus.Closed } ∧
      g'.deck.get_status = DeckStatus.Closed) ∧
    (g.status ≠ GameStatus.Initiating → g.status ≠ GameStatus.Idle →
      Game.close g = Except.error GameError.OngoingRound) := by
  cases hs : g.status with
  | Initiating =>
    simp [Game.close, hs, callOk]
    simp [Deck.close, Deck.get_status]
  | Idle =>
    simp [Game.close, hs, callOk]
    simp [Deck.close, Deck.get_status]
  | DeckAction s => simp [Game.close, hs, callOk]
  | PokerAction s => simp [Game.close, hs, callOk]
  | Closed => simp [Game.close, hs, callOk]

/-- Witness for C5 at concrete inputs: closing a fresh game succeeds, and
closing after a successful `start()` (status `DeckAction(*)`, Scenario D)
fails with `OngoingRound`. -/
theorem c5_close_guard_witness :
    callOk (Game.close (Game.new "a" 0)) = true ∧
    Game.close gDemo2 = Except.error GameError.OngoingRound :=
  ⟨(c5_close_guard (Game.new "a" 0)).1.mpr (Or.inl rfl),
   (c5_close_guard gDemo2).2.2 (by decide) (by decide)⟩

/-- C2: after a successful `close()` the status is `Closed` and every
subsequent mutating operation — `start`, `enter`, `submit_shuffled`,
`finish_reveal`, `submit_reveal_part` — returns an error (hence, by the
state-passing embedding, without side effects), so the status remains
`Closed`. -/
theorem c2_closed_absorbing (g0 g : Game) (h : Game.close g0 = Except.ok g) :
    g.status = GameStatus.Closed ∧
    Game.start g = Except.error GameError.OngoingRound ∧
    (∃ e, Game.enter g = Except.error e) ∧
    (∀ cs, ∃ e, Game.submit_shuffled cs g = Except.error e) ∧
    (∃ e, Game.finish_reveal g = Except.error e) ∧
    (∀ c, ∃ e, Game.submit_reveal_part c g = Except.error e) := by
  have hg : g = { g0 with deck := g0.deck.close, status := GameStatus.Closed } := by
    cases hs : g0.status <;> rw [Game.close, hs] at h <;> simp at h <;> exact h.symm
  subst hg
  refine ⟨rfl, rfl, ?_, ?_, ?_, ?_⟩
  · exact ⟨GameError.DeckError DeckError.InvalidPhase,
      by simp [Game.enter, Deck.enter, Deck.close]⟩
  · exact fun cs => ⟨GameError.DeckError DeckError.InvalidPhase,
      by simp [Game.submit_shuffled, Deck.submit_shuffled, Deck.close]⟩
  · exact ⟨GameError.DeckError DeckError.InvalidPhase,
      by simp [Game.finish_reveal, Deck.finish_reveal, Deck.close]⟩
  · exact fun c => ⟨GameError.DeckError DeckError.InvalidPhase,
      by simp [Game.submit_reveal_part, Deck.submit_reveal_part, Deck.close]⟩

/-- Witness for C2 at a concrete input: close a fresh game, then `enter` and
`start` both fail. -/
theorem c2_closed_absorbing_witness :
    gameClosedDemo.status = GameStatus.Closed ∧
    Game.start gameClosedDemo = Except.error GameError.OngoingRound ∧
    (∃ e, Game.enter gameClosedDemo = Except.error e) := by
  have h := c2_closed_absorbing (Game.new "a" 0) gameClosedDemo (by rfl)
  exact ⟨h.1, h.2.1, h.2.2.1⟩

/-- C4: after any successful deck-forwarding call whose resulting deck status
is not `Running`, the game status is `DeckAction` of exactly that reported
deck status. -/
theorem c4_status_mirrors_deck (g g' : Game)
    (hcall : (∃ cs, Game.submit_shuffled cs g = Except.ok g') ∨
             Game.finish_reveal g = Except.ok g' ∨
             (∃ c, Game.submit_reveal_part c g = Except.ok g'))
    (hnr : g'.deck.get_status ≠ DeckStatus.Running) :
    g'.status = GameStatus.DeckAction g'.deck.get_status := by
  have key : ∀ d : Deck, g' = Game.check_next_status { g with deck := d } →
      g'.status = GameStatus.DeckAction g'.deck.get_status := by
    intro d hg
    have hdeck : g'.deck = d := by
      rw [hg]; exact (check_next_status_spec { g with deck := d }).1
    have h2 := (check_next_status_spec { g with deck := d }).2
    rw [← hg] at h2
    rw [hdeck]
    exact h2 (hdeck ▸ hnr)
  rcases hcall with ⟨cs, hok⟩ | hok | ⟨c, hok⟩
  · rw [Game.submit_shuffled] at hok
    cases hd : g.deck.submit_shuffled cs <;> rw [hd] at hok <;> simp at hok
    exact key _ hok.symm
  · rw [Game.finish_reveal] at hok
    cases hd : g.deck.finish_reveal <;> rw [hd] at hok <;> simp at hok
    exact key _ hok.symm
  · rw [Game.submit_reveal_part] at hok
    cases hd : g.deck.submit_reveal_part c <;> rw [hd] at hok <;> simp at hok
    exact key _ hok.symm

/-- Witness for C4 at a concrete input: submitting the single entrant's
shuffle moves the deck to `Revealing`, and the game status mirrors it. -/
theorem c4_status_mirrors_deck_witness :
    gDemo3.status = GameStatus.DeckAction gDemo3.deck.get_status :=
  c4_status_mirrors_deck gDemo2 gDemo3
    (Or.inl ⟨List.range 52, by rfl⟩) (by decide)

/-- C1 (code evidence): on the forwarding call where the deck first reports
`Running` (a successful `finish_reveal` here), the betting protocol's advance
operation is invoked, but — contrary to the claim and marked `// TODO: Here`
in game.rs — the game status is NOT set to `PokerAction(poker.status())`: it
stays at the `DeckAction(Revealing)` value left by the previous call. -/
theorem c1_ready_handoff_code_bug :
    Game.finish_reveal gDemo3 = Except.ok gDemo4 ∧
    gDemo4.deck.get_status = DeckStatus.Running ∧
    gDemo4.poker = gDemo3.poker.next ∧
    gDemo4.status = GameStatus.DeckAction DeckStatus.Revealing ∧
    (gDemo4.status == GameStatus.PokerAction gDemo4.poker.get_status) = false := by
  exact ⟨by rfl, by rfl, by rfl, by rfl, by rfl⟩

/-- C7: every successful `enter()` registers exactly one new betting
participant with the fixed starting stake 1000, appended after all previously
registered participants (so each prior call's effect is preserved) and leaving
the betting substatus untouched; when the deck rejects entry, the wrapped
`DeckError` is returned and no participant is added. -/
theorem c7_enter_registers_player (g : Game) :
    (∀ g', Game.enter g = Except.ok g' →
      g'.poker.players = g.poker.players ++ [1000] ∧
      g'.poker.status = g.poker.status) ∧
    (∀ e, g.deck.enter = Except.error e →
      Game.enter g = Except.error (GameError.DeckError e)) := by
  cases hd : g.deck.enter with
  | error e => simp [Game.enter, hd]
  | ok d =>
    constructor
    · intro g' hg'
      rw [Game.enter, hd] at hg'
      simp at hg'
      simp [← hg', Poker.new_player]
    · intro e he
      simp at he

/-- Witness for C7 at a concrete input: the first `enter` on a fresh game
appends the stake-1000 participant to the empty table. -/
theorem c7_enter_registers_player_witness :
    gEnter1.poker.players = (Game.new "a" 0).poker.players ++ [1000] :=
  ((c7_enter_registers_player (Game.new "a" 0)).1 gEnter1 (by rfl)).1

/-- C8 (counterexample): the state before `start()` is called is
`GameStatus.Initiating` — the shuffle has not yet begun — yet
`is_initiating()` returns `false` on it: the method only recognizes
`DeckAction(DeckStatus::Initiating)`. -/
theorem c8_is_initiating_counterexample :
    (Game.new "a" 0).status = GameStatus.Initiating ∧
    GameStatus.is_initiating (Game.new "a" 0).status = false := by
  exact ⟨rfl, by rfl⟩

/-- C8 (amended): `is_initiating()` returns true exactly when the status is
`DeckAction` of the deck protocol's initial substatus; in particular it is
false on `GameStatus.Initiating`, the state before `start()` is called. -/
theorem c8_is_initiating_amended (s : GameStatus) :
    s.is_initiating = true ↔ s = GameStatus.DeckAction DeckStatus.Initiating := by
  simp [GameStatus.is_initiating]

/-- C9: deserializing the serialization of any `Game` (reachable ones
included) yields the same logical value — same status, id, name and owned
deck/betting states — consuming the whole stream; the same round-trip holds
for `GameStatus` and for the orchestrator's error type `GameError`. -/
theorem c9_serialization_roundtrip :
    (∀ g : Game, Codec.deserGame (Codec.serGame g) = some (g, [])) ∧
    (∀ s : GameStatus, Codec.deserGameStatus (Codec.serGameStatus s) = some (s, [])) ∧
    (∀ e : GameError, Codec.deserGameError (Codec.serGameError e) = some (e, [])) := by
  refine ⟨fun g => ?_, fun s => ?_, fun e => ?_⟩
  · simpa using Codec.deserGame_serGame g []
  · simpa using Codec.deserGameStatus_ser s []
  · simpa using Codec.deserGameError_ser e []

/-- C10: `enter()` neither reads nor writes the status field: replacing the
status by any value commutes with the call (so success is decided solely by
the deck's entry operation, whose outcome `callOk` mirrors), and a successful
call leaves the status identical. -/
theorem c10_enter_ignores_status (g : Game) (s : GameStatus) :
    callOk (Game.enter g) = callOk g.deck.enter ∧
    Game.enter { g with status := s } =
      Except.map (fun g' => { g' with status := s }) (Game.enter g) ∧
    (∀ g', Game.enter g = Except.ok g' → g'.status = g.status) := by
  cases hd : g.deck.enter with
  | error e => simp [Game.enter, hd, callOk, Except.map]
  | ok d =>
    refine ⟨by simp [Game.enter, hd, callOk], by simp [Game.enter, hd, Except.map], ?_⟩
    intro g' hg'
    rw [Game.enter, hd] at hg'
    simp at hg'
    simp [← hg']

/-- Witness for C10 at a concrete input: `enter` succeeds on a game whose
status field is `Closed` (with a fresh deck), and leaves that status in
place. -/
theorem c10_enter_ignores_status_witness :
    gClosedEnter.status = GameStatus.Closed := by
  have h := (c10_enter_ignores_status gStatusClosed GameStatus.Idle).2.2
    gClosedEnter (by rfl)
  simpa using h
